import Mathlib

/-!
Verification development for the open62541pp Alarms & Conditions core:
the `Condition` entity (`src/condition.cpp`, `include/open62541pp/condition.hpp`),
the `OnOffCondition` convenience state machine
(`include/open62541pp/condition_onoff.hpp`), the two-state transition callback
registry and its dispatch thunks (`src/condition.cpp`), and the access-control
adapter of `examples/server_accesscontrol2.cpp`.

The C++ code is shallowly embedded: runtime side effects (field writes, event
triggers, node deletion) become explicit action traces; the runtime's stored
node values become a key/value store; C++ exceptions become `Except` errors;
the process-wide callback registry becomes an association list threaded through
the registration and dispatch functions.
-/

namespace OpcUa

/-- OPC UA node identifier; `null` models a default-constructed `NodeId{}`. -/
inductive NodeId where
  | null : NodeId
  | node (n : Nat) : NodeId
deriving DecidableEq, Repr

/-- Embeds `NodeId::isNull` from the C++ wrapper. -/
def NodeId.isNull : NodeId → Bool
  | .null => true
  | .node _ => false

/-- Status codes (`UA_StatusCode`): a 32-bit code whose severity bits make it good or bad. -/
abbrev StatusCode := Nat

/-- The code `UA_STATUSCODE_GOOD`. -/
def GOOD : StatusCode := 0

/-- The code `UA_STATUSCODE_BADINTERNALERROR` (0x80020000). -/
def BADINTERNALERROR : StatusCode := 0x80020000

/-- The code `UA_STATUSCODE_BADNOTFOUND` (0x803E0000). -/
def BADNOTFOUND : StatusCode := 0x803E0000

/-- A status code is good when its severity bits are not `Bad` (top bit clear). -/
def isGood (s : StatusCode) : Bool := s < 0x80000000

/-- Embeds `opcua::QualifiedName`: namespace index plus name. -/
structure QualifiedName where
  namespaceIndex : Nat
  name : String
deriving DecidableEq, Repr

/-- Embeds `opcua::Variant`, restricted to the payload types this core writes. -/
inductive Variant where
  | boolean (b : Bool)
  | uint16 (n : Nat)
  | uint32 (n : Nat)
  | localizedText (locale text : String)
  | dateTime (t : Nat)
  | string (s : String)
deriving DecidableEq, Repr

/-- Address of a condition field: direct (`Severity`) or a nested property of a
variable field (`ActiveState` → `Id`). -/
abbrev FieldKey := QualifiedName × Option QualifiedName

/-- The runtime's stored values for one condition's fields. -/
def FieldStore := FieldKey → Option Variant

/-- Pointwise update of the runtime's field store. -/
def FieldStore.set (σ : FieldStore) (k : FieldKey) (v : Variant) : FieldStore :=
  fun k' => if k' = k then some v else σ k'

/-- One runtime side effect performed by the `Condition` field-mutation API. -/
inductive Action where
  | setField (field : QualifiedName) (value : Variant)
  | setVariableField (varName propName : QualifiedName) (value : Variant)
  | triggerEvent (source : NodeId)
deriving DecidableEq, Repr

/-- Whether an action is the event trigger (as opposed to a field write). -/
def Action.isTrigger : Action → Bool
  | .triggerEvent _ => true
  | _ => false

/-- Effect of one action on the runtime's field store (`trigger` writes no field). -/
def applyAction (σ : FieldStore) : Action → FieldStore
  | .setField f v => σ.set (f, none) v
  | .setVariableField f p v => σ.set (f, some p) v
  | .triggerEvent _ => σ

/-- Effect of a trace of actions, applied left to right. -/
def applyTrace (σ : FieldStore) (tr : List Action) : FieldStore :=
  tr.foldl applyAction σ

/-- Field keys used by `OnOffCondition` (namespace 0 qualified names). -/
def messageKey : FieldKey := (⟨0, "Message"⟩, none)

def timeKey : FieldKey := (⟨0, "Time"⟩, none)

def retainKey : FieldKey := (⟨0, "Retain"⟩, none)

def severityKey : FieldKey := (⟨0, "Severity"⟩, none)

def enabledIdKey : FieldKey := (⟨0, "EnabledState"⟩, some ⟨0, "Id"⟩)

def activeIdKey : FieldKey := (⟨0, "ActiveState"⟩, some ⟨0, "Id"⟩)

def ackedIdKey : FieldKey := (⟨0, "AckedState"⟩, some ⟨0, "Id"⟩)

def confirmedIdKey : FieldKey := (⟨0, "ConfirmedState"⟩, some ⟨0, "Id"⟩)

/-- Embeds `OnOffCondition::setActive(source, active, message)` as the trace of runtime
side effects it performs, in program order.  `now` stands for `DateTime::now()`.
Mirrors `condition_onoff.hpp` lines 36–53: Message (explicit if non-empty, else
the per-state default), Time, Retain, nested `ActiveState/Id`; when turning
inactive additionally reset `AckedState/Id` and `ConfirmedState/Id`; finally
`trigger(source)`. -/
def setActive (source : NodeId) (active : Bool) (message : String) (now : Nat) :
    List Action :=
  (if message ≠ "" then
      [Action.setField ⟨0, "Message"⟩ (.localizedText "" message)]
    else
      [Action.setField ⟨0, "Message"⟩
        (.localizedText "" (if active then "Alarm active" else "Alarm inactive"))])
  ++ [Action.setField ⟨0, "Time"⟩ (.dateTime now),
      Action.setField ⟨0, "Retain"⟩ (.boolean active),
      Action.setVariableField ⟨0, "ActiveState"⟩ ⟨0, "Id"⟩ (.boolean active)]
  ++ (if !active then
        [Action.setVariableField ⟨0, "AckedState"⟩ ⟨0, "Id"⟩ (.boolean false),
         Action.setVariableField ⟨0, "ConfirmedState"⟩ ⟨0, "Id"⟩ (.boolean false)]
      else [])
  ++ [Action.triggerEvent source]

/-- Embeds the body of `OnOffCondition::OnOffCondition` as the trace of runtime side effects of its
body (`condition_onoff.hpp` lines 27–32), performed after the base `Condition`
creation: enable, then the default fields in source order. -/
def onOffConstructorActions (initialSeverity : Nat) : List Action :=
  [Action.setVariableField ⟨0, "EnabledState"⟩ ⟨0, "Id"⟩ (.boolean true),
   Action.setField ⟨0, "Severity"⟩ (.uint16 initialSeverity),
   Action.setField ⟨0, "Message"⟩ (.localizedText "" "Alarm inactive"),
   Action.setField ⟨0, "Retain"⟩ (.boolean false)]

/-- One step performed while constructing an `OnOffCondition`: either the base
`Condition` creation (`UA_Server_createCondition`) or a field initialization. -/
inductive ConstructStep where
  | createCondition (conditionType : NodeId) (browseName : QualifiedName)
      (conditionSource parentReferenceType : NodeId)
  | fieldInit (a : Action)
deriving DecidableEq, Repr

/-- Full construction trace of `OnOffCondition(server, source, name,
parentReferenceType, initialSeverity)`: the delegating constructor runs the base
`Condition` creation against `OffNormalAlarmType` first (member-initializer
list), then the body initializes the default fields. -/
def onOffConstruct (source : NodeId) (name : String) (parentReferenceType : NodeId)
    (initialSeverity : Nat) : List ConstructStep :=
  ConstructStep.createCondition (.node 10637) ⟨0, name⟩ source parentReferenceType
    :: (onOffConstructorActions initialSeverity).map ConstructStep.fieldInit

/-- Field store after running the field-initialization steps of a construction
trace on an initial store. -/
def applyConstruct (σ : FieldStore) (tr : List ConstructStep) : FieldStore :=
  tr.foldl (fun σ s => match s with
    | .createCondition _ _ _ _ => σ
    | .fieldInit a => applyAction σ a) σ

/-- Embeds `throwIfBad`: raise the status as a C++ exception when it is bad. -/
def throwIfBad (s : StatusCode) : Except StatusCode Unit :=
  if isGood s then .ok () else .error s

/-- Embeds `opcua::Condition`: connection handle, node id, ownership flag
(`condition.hpp` lines 96–99; `owns_` defaults to `true`, the wrapping
constructor sets it to `false`). -/
structure Condition where
  connection : Nat
  id : NodeId
  owns : Bool
deriving DecidableEq, Repr

/-- Embeds `Condition(Server&, const NodeId& existingConditionId, UseExisting)`:
borrow an existing node, never owning it. -/
def Condition.wrapExisting (connection : Nat) (existingConditionId : NodeId) :
    Condition :=
  { connection := connection, id := existingConditionId, owns := false }

/-- A node deletion performed against the runtime
(`UA_Server_deleteNode(connection, id, deleteReferences)`). -/
structure DeleteAction where
  connection : Nat
  id : NodeId
  deleteReferences : Bool
deriving DecidableEq, Repr

/-- Embeds `Condition::~Condition` (`condition.cpp` lines 31–35): delete the node with
its references iff the condition owns it and the id is non-null.  The status
returned by `UA_Server_deleteNode` is ignored, so the destructor never throws:
its result is `.ok` for every outcome `deleteStatus` of the runtime call. -/
def Condition.destructor (c : Condition) (deleteStatus : StatusCode) :
    Except StatusCode (List DeleteAction) :=
  if c.owns && !c.id.isNull then
    let _ := deleteStatus
    .ok [{ connection := c.connection, id := c.id, deleteReferences := true }]
  else
    .ok []

/-- Embeds `Condition::release` (`condition.cpp` lines 65–67):
`return std::exchange(id_, {})` — hand out the id and leave a null id behind
(the `owns_` flag itself is not touched). -/
def Condition.release (c : Condition) : NodeId × Condition :=
  (c.id, { c with id := .null })

/-- Embeds `opcua::Session` as seen by transition callbacks: the server handle
and the session's node id (null for the anonymous placeholder). -/
structure Session where
  server : Nat
  sessionId : NodeId
deriving DecidableEq, Repr

/-- User transition callback `(Session&, const NodeId&, bool) → UA_StatusCode`.
A C++ callback may also raise an exception, modelled as `Except.error` carrying
the exception description. -/
def TwoStateCallback := Session → NodeId → Bool → Except String StatusCode

/-- Registry slot per (condition, transition kind):
`ServerContext::ConditionTwoStateCallbacks` entry — source node, remove-branch
flag, and the stored `std::function` (which may be empty, hence `Option`). -/
structure CallbackSlot where
  source : NodeId
  removeBranch : Bool
  cb : Option TwoStateCallback

/-- Per-condition record of the four optional callback slots
(`ServerContext::ConditionTwoStateCallbacks`). -/
structure ConditionTwoStateCallbacks where
  enteringEnabled : Option CallbackSlot := none
  enteringAcked : Option CallbackSlot := none
  enteringConfirmed : Option CallbackSlot := none
  enteringActive : Option CallbackSlot := none

/-- The process-wide registry `ctx.conditionCallbacks`: condition id → record. -/
def Registry := List (NodeId × ConditionTwoStateCallbacks)

/-- Embeds `ctx.conditionCallbacks.find(condition)` (`getCallbacks` in
`condition.cpp` lines 74–78): `none` when the condition has no record. -/
def Registry.find : Registry → NodeId → Option ConditionTwoStateCallbacks
  | [], _ => none
  | (k, cbs) :: rest, condition =>
    if k = condition then some cbs else Registry.find rest condition

/-- Embeds `ctx.conditionCallbacks[id]` followed by a mutation: look up the
record, default-constructing it when absent (`operator[]`), and apply `f`. -/
def Registry.modify : Registry → NodeId → (ConditionTwoStateCallbacks →
    ConditionTwoStateCallbacks) → Registry
  | [], condition, f => [(condition, f {})]
  | (k, cbs) :: rest, condition, f =>
    if k = condition then (k, f cbs) :: rest
    else (k, cbs) :: Registry.modify rest condition f

/-- Result of one dispatch-thunk run: the value handed back to the runtime
(`Except.error` when a C++ exception escapes the thunk), paired with whether
the stored user callback was invoked. -/
def DispatchResult := Except String StatusCode × Bool

/-- Embeds `twoStateThunkEnabled` (`condition.cpp` lines 80–98): after the
fixed log line, look up the condition's record; when it and its
`enteringEnabled` slot with a non-empty function exist, invoke the callback
(with the resolved or anonymous session) and hand its result back verbatim —
there is no try/catch around the invocation — otherwise return
`UA_STATUSCODE_GOOD`. -/
def twoStateThunkEnabled (reg : Registry) (server : Nat) (condition : NodeId)
    (sessionId : Option NodeId) : DispatchResult :=
  match reg.find condition with
  | some cbs =>
    match cbs.enteringEnabled with
    | some slot =>
      match slot.cb with
      | some cb =>
        let sid := sessionId.getD .null
        (cb { server := server, sessionId := sid } slot.source slot.removeBranch,
         true)
      | none => (.ok GOOD, false)
    | none => (.ok GOOD, false)
  | none => (.ok GOOD, false)

/-- Embeds `twoStateThunkAcked` (`condition.cpp` lines 100–118); same shape as
the Enabled thunk but reading the `enteringAcked` slot. -/
def twoStateThunkAcked (reg : Registry) (server : Nat) (condition : NodeId)
    (sessionId : Option NodeId) : DispatchResult :=
  match reg.find condition with
  | some cbs =>
    match cbs.enteringAcked with
    | some slot =>
      match slot.cb with
      | some cb =>
        let sid := sessionId.getD .null
        (cb { server := server, sessionId := sid } slot.source slot.removeBranch,
         true)
      | none => (.ok GOOD, false)
    | none => (.ok GOOD, false)
  | none => (.ok GOOD, false)

/-- Embeds `twoStateThunkConfirmed` (`condition.cpp` lines 120–138); same shape
but reading the `enteringConfirmed` slot. -/
def twoStateThunkConfirmed (reg : Registry) (server : Nat) (condition : NodeId)
    (sessionId : Option NodeId) : DispatchResult :=
  match reg.find condition with
  | some cbs =>
    match cbs.enteringConfirmed with
    | some slot =>
      match slot.cb with
      | some cb =>
        let sid := sessionId.getD .null
        (cb { server := server, sessionId := sid } slot.source slot.removeBranch,
         true)
      | none => (.ok GOOD, false)
    | none => (.ok GOOD, false)
  | none => (.ok GOOD, false)

/-- Embeds `twoStateThunkActive` (`condition.cpp` lines 140–158); same shape
but reading the `enteringActive` slot. -/
def twoStateThunkActive (reg : Registry) (server : Nat) (condition : NodeId)
    (sessionId : Option NodeId) : DispatchResult :=
  match reg.find condition with
  | some cbs =>
    match cbs.enteringActive with
    | some slot =>
      match slot.cb with
      | some cb =>
        let sid := sessionId.getD .null
        (cb { server := server, sessionId := sid } slot.source slot.removeBranch,
         true)
      | none => (.ok GOOD, false)
    | none => (.ok GOOD, false)
  | none => (.ok GOOD, false)

/-- Embeds `Condition::onEnabled` (`condition.cpp` lines 171–182): store the
new slot in the registry (lazily creating the record, `emplace` overwriting any
prior slot), then attempt the runtime hook installation
(`setTwoStateCallback`, which calls `throwIfBad` on the runtime's status
`installStatus`).  Returns the registry as left behind and the call's outcome:
on a bad status the exception is raised after the registry was updated. -/
def Condition.onEnabled (c : Condition) (reg : Registry) (source : NodeId)
    (cb : TwoStateCallback) (removeBranch : Bool) (installStatus : StatusCode) :
    Registry × Except StatusCode Unit :=
  let slot : CallbackSlot :=
    { source := source, removeBranch := removeBranch, cb := some cb }
  let reg' := reg.modify c.id fun cbs =>
    { cbs with enteringEnabled := some slot }
  (reg', throwIfBad installStatus)

/-- Embeds `Condition::onAboutToBeAcked` (`condition.cpp` lines 186–197);
same shape but filling the `enteringAcked` slot. -/
def Condition.onAboutToBeAcked (c : Condition) (reg : Registry) (source : NodeId)
    (cb : TwoStateCallback) (removeBranch : Bool) (installStatus : StatusCode) :
    Registry × Except StatusCode Unit :=
  let slot : CallbackSlot :=
    { source := source, removeBranch := removeBranch, cb := some cb }
  let reg' := reg.modify c.id fun cbs =>
    { cbs with enteringAcked := some slot }
  (reg', throwIfBad installStatus)

/-- Embeds `Condition::onAboutToBeConfirmed` (`condition.cpp` lines 201–212);
same shape but filling the `enteringConfirmed` slot. -/
def Condition.onAboutToBeConfirmed (c : Condition) (reg : Registry)
    (source : NodeId) (cb : TwoStateCallback) (removeBranch : Bool)
    (installStatus : StatusCode) : Registry × Except StatusCode Unit :=
  let slot : CallbackSlot :=
    { source := source, removeBranch := removeBranch, cb := some cb }
  let reg' := reg.modify c.id fun cbs =>
    { cbs with enteringConfirmed := some slot }
  (reg', throwIfBad installStatus)

/-- Embeds `Condition::onActive` (`condition.cpp` lines 216–227); same shape
but filling the `enteringActive` slot. -/
def Condition.onActive (c : Condition) (reg : Registry) (source : NodeId)
    (cb : TwoStateCallback) (removeBranch : Bool) (installStatus : StatusCode) :
    Registry × Except StatusCode Unit :=
  let slot : CallbackSlot :=
    { source := source, removeBranch := removeBranch, cb := some cb }
  let reg' := reg.modify c.id fun cbs =>
    { cbs with enteringActive := some slot }
  (reg', throwIfBad installStatus)

/-- Identity-token variant decoded from the `ExtensionObject` at session
activation (`userIdentityToken.decodedData<...>()` probes in
`server_accesscontrol2.cpp`); `unknown` covers the final `else` branch. -/
inductive UserIdentityToken where
  | anonymous
  | userName (user password : String)
  | x509 (certificateData : List Nat)
  | issued (tokenData : List Nat) (encryptionAlgorithm : String)
  | unknown
deriving DecidableEq, Repr

/-- Per-session attribute store: qualified-name key to typed value. -/
def SessionAttributes := List (QualifiedName × Variant)

/-- Embeds `Session::setSessionAttribute`: insert the key or overwrite its
current value. -/
def SessionAttributes.set : SessionAttributes → QualifiedName → Variant →
    SessionAttributes
  | [], key, v => [(key, v)]
  | (k, w) :: rest, key, v =>
    if k = key then (k, v) :: rest
    else (k, w) :: SessionAttributes.set rest key v

/-- Lookup of a session attribute's stored value. -/
def SessionAttributes.get : SessionAttributes → QualifiedName → Option Variant
  | [], _ => none
  | (k, w) :: rest, key =>
    if k = key then some w else SessionAttributes.get rest key

/-- Modelled from the spec: `Session::getSessionAttribute` is not under `src/`
(only its callers are); per §7, lookup on a missing key is a recoverable
failure raised to the caller, modelled as `Except.error`. -/
def getSessionAttribute (store : SessionAttributes) (key : QualifiedName) :
    Except StatusCode Variant :=
  match store.get key with
  | some v => .ok v
  | none => .error BADNOTFOUND

/-- Embeds `Variant::scalar<bool>`: the stored boolean, or a raised failure on
a type mismatch. -/
def Variant.scalarBool : Variant → Except StatusCode Bool
  | .boolean b => .ok b
  | _ => .error BADINTERNALERROR

/-- Embeds `Variant::scalar<String>`: the stored string, or a raised failure
on a type mismatch. -/
def Variant.scalarString : Variant → Except StatusCode String
  | .string s => .ok s
  | _ => .error BADINTERNALERROR

/-- Embeds `AccessControlAllTokens::activateSession`
(`server_accesscontrol2.cpp` lines 23–84) as its effect on the session
attribute store: probe the token variant, record variant-specific facts and
compute `(identityType, isAdmin)` per the demo policy (username `"admin"`,
any X509 or any Issued token ⇒ admin), then store the normalized
`identityType` and `isAdmin` attributes. -/
def activateSession (store : SessionAttributes) (token : UserIdentityToken) :
    SessionAttributes :=
  let probed : String × Bool × SessionAttributes :=
    match token with
    | .anonymous => ("Anonymous", false, store)
    | .userName user _ =>
      ("UserName", user = "admin", store.set ⟨0, "userName"⟩ (.string user))
    | .x509 cert =>
      ("X509", true, store.set ⟨0, "certSize"⟩ (.uint32 cert.length))
    | .issued tok alg =>
      ("Issued", true,
        (store.set ⟨0, "issuedTokenSize"⟩ (.uint32 tok.length)).set
          ⟨0, "issuedEncAlgo"⟩ (.string alg))
    | .unknown => ("Unknown", false, store)
  ((probed.2.2.set ⟨0, "identityType"⟩ (.string probed.1)).set
    ⟨0, "isAdmin"⟩ (.boolean probed.2.1))

/-- Access level bitmask values: `AccessLevel::CurrentRead` and
`AccessLevel::CurrentWrite`. -/
def CurrentRead : Nat := 0x01

def CurrentWrite : Nat := 0x02

/-- Embeds `AccessControlAllTokens::getUserAccessLevel`
(`server_accesscontrol2.cpp` lines 109–133): read `identityType` as a string
scalar (no try/catch), then read `isAdmin` as a bool scalar (no try/catch),
and grant read+write for admins, read-only otherwise.  The browse/display-name
reads in between sit inside their own try/catch and do not affect the result.
Any failure raised by the two attribute reads escapes the function. -/
def getUserAccessLevel (store : SessionAttributes) : Except StatusCode Nat := do
  let identityV ← getSessionAttribute store ⟨0, "identityType"⟩
  let _identity ← identityV.scalarString
  let adminV ← getSessionAttribute store ⟨0, "isAdmin"⟩
  let admin ← adminV.scalarBool
  if admin then
    pure (CurrentRead ||| CurrentWrite)
  else
    pure CurrentRead

/-! Helper lemmas about the stores and the registry. -/

theorem FieldStore.set_self (σ : FieldStore) (k : FieldKey) (v : Variant) :
    σ.set k v k = some v := by
  simp [FieldStore.set]

theorem FieldStore.set_other (σ : FieldStore) (k k' : FieldKey) (v : Variant)
    (h : k' ≠ k) : σ.set k v k' = σ k' := by
  simp [FieldStore.set, h]

theorem SessionAttributes.get_set_self (st : SessionAttributes)
    (k : QualifiedName) (v : Variant) : (st.set k v).get k = some v := by
  induction st with
  | nil => simp [SessionAttributes.set, SessionAttributes.get]
  | cons hd tl ih =>
    by_cases h : hd.1 = k <;>
      simp [SessionAttributes.set, SessionAttributes.get, h, ih]

theorem SessionAttributes.get_set_other (st : SessionAttributes)
    (k k' : QualifiedName) (v : Variant) (h : k' ≠ k) :
    (st.set k v).get k' = st.get k' := by
  induction st with
  | nil => simp [SessionAttributes.set, SessionAttributes.get, Ne.symm h]
  | cons hd tl ih =>
    by_cases hk : hd.1 = k
    · subst hk
      simp [SessionAttributes.set, SessionAttributes.get, h, Ne.symm h]
    · by_cases hk' : hd.1 = k' <;>
        simp [SessionAttributes.set, SessionAttributes.get, h, hk, hk', ih]

theorem Registry.find_modify_self (reg : Registry) (condition : NodeId)
    (f : ConditionTwoStateCallbacks → ConditionTwoStateCallbacks) :
    (reg.modify condition f).find condition =
      some (f ((reg.find condition).getD {})) := by
  induction reg with
  | nil => simp [Registry.modify, Registry.find]
  | cons hd tl ih =>
    by_cases h : hd.1 = condition <;>
      simp [Registry.modify, Registry.find, h, ih]

/-- C3: for every `OnOffCondition` and every prior sequence of field writes
(any initial field store `σ`), after `setActive(source, false)` the stored
fields satisfy `ActiveState/Id == false`, `AckedState/Id == false`,
`ConfirmedState/Id == false` and `Retain == false`, regardless of any
Acked/Confirmed values set while the alarm was active. -/
theorem setActive_false_resets (σ : FieldStore) (source : NodeId)
    (message : String) (now : Nat) :
    applyTrace σ (setActive source false message now) activeIdKey =
        some (.boolean false) ∧
    applyTrace σ (setActive source false message now) ackedIdKey =
        some (.boolean false) ∧
    applyTrace σ (setActive source false message now) confirmedIdKey =
        some (.boolean false) ∧
    applyTrace σ (setActive source false message now) retainKey =
        some (.boolean false) := by
  by_cases h : message = "" <;>
    simp [setActive, h, applyTrace, applyAction, FieldStore.set,
      activeIdKey, ackedIdKey, confirmedIdKey, retainKey]

/-- C4: for every call `setActive(source, active, message)`, the `Message`
field is set to the explicit message when non-empty and to the fixed default
("Alarm active" / "Alarm inactive") when empty, the field writes occur in the
order `Message`, `Time`, `Retain`, then nested `ActiveState/Id` (the latter two
mirroring `active`), and the event trigger is issued after all field writes
(the remaining writes before it contain no trigger). -/
theorem setActive_write_order (source : NodeId) (active : Bool)
    (message : String) (now : Nat) :
    ∃ resets : List Action,
      setActive source active message now =
        Action.setField ⟨0, "Message"⟩ (.localizedText ""
            (if message = "" then
              (if active then "Alarm active" else "Alarm inactive")
            else message)) ::
        Action.setField ⟨0, "Time"⟩ (.dateTime now) ::
        Action.setField ⟨0, "Retain"⟩ (.boolean active) ::
        Action.setVariableField ⟨0, "ActiveState"⟩ ⟨0, "Id"⟩ (.boolean active) ::
        (resets ++ [Action.triggerEvent source]) ∧
      ∀ a ∈ resets, a.isTrigger = false := by
  refine ⟨if !active then
      [Action.setVariableField ⟨0, "AckedState"⟩ ⟨0, "Id"⟩ (.boolean false),
       Action.setVariableField ⟨0, "ConfirmedState"⟩ ⟨0, "Id"⟩ (.boolean false)]
    else [], ?_, ?_⟩
  · by_cases h : message = "" <;> cases active <;>
      simp [setActive, h, Action.isTrigger]
  · cases active <;> simp [Action.isTrigger]

/-- C8: for every `OnOffCondition` constructed with initial severity `s`,
construction performs the base `Condition` creation first and then initializes
`EnabledState/Id = true`, `Severity = s`, `Message = "Alarm inactive"`,
`Retain = false`, in that order; the resulting field store (before any
caller-visible use) holds exactly those values — e.g. `Severity == s`
immediately after construction. -/
theorem onOffConstruct_initializes (σ : FieldStore) (source : NodeId)
    (name : String) (parentReferenceType : NodeId) (s : Nat) :
    onOffConstruct source name parentReferenceType s =
      ConstructStep.createCondition (.node 10637) ⟨0, name⟩ source
          parentReferenceType ::
      [ConstructStep.fieldInit
          (.setVariableField ⟨0, "EnabledState"⟩ ⟨0, "Id"⟩ (.boolean true)),
       ConstructStep.fieldInit (.setField ⟨0, "Severity"⟩ (.uint16 s)),
       ConstructStep.fieldInit
          (.setField ⟨0, "Message"⟩ (.localizedText "" "Alarm inactive")),
       ConstructStep.fieldInit (.setField ⟨0, "Retain"⟩ (.boolean false))] ∧
    applyConstruct σ (onOffConstruct source name parentReferenceType s)
        enabledIdKey = some (.boolean true) ∧
    applyConstruct σ (onOffConstruct source name parentReferenceType s)
        severityKey = some (.uint16 s) ∧
    applyConstruct σ (onOffConstruct source name parentReferenceType s)
        messageKey = some (.localizedText "" "Alarm inactive") ∧
    applyConstruct σ (onOffConstruct source name parentReferenceType s)
        retainKey = some (.boolean false) := by
  refine ⟨rfl, ?_, ?_, ?_, ?_⟩ <;>
    simp [onOffConstruct, onOffConstructorActions, applyConstruct, applyAction,
      FieldStore.set, enabledIdKey, severityKey, messageKey, retainKey]

/-- C5: for every `Condition`, destruction deletes the underlying node (with
its references) exactly once iff the condition is owning and its id is
non-null; a borrowed condition (owning flag off) never deletes; and the
destructor never throws — its result is `.ok` for every outcome
`deleteStatus` of the runtime's deletion call, failing ones included. -/
theorem condition_destructor_deletes_iff (c : Condition)
    (deleteStatus : StatusCode) :
    ∃ deletions : List DeleteAction,
      c.destructor deleteStatus = .ok deletions ∧
      deletions.length =
        (if c.owns = true ∧ c.id.isNull = false then 1 else 0) ∧
      (∀ d ∈ deletions,
        d = { connection := c.connection, id := c.id, deleteReferences := true }) ∧
      (c.owns = false → deletions = []) := by
  unfold Condition.destructor
  by_cases ho : c.owns = true <;> by_cases hn : c.id.isNull = false <;>
    simp_all

/-- C6: for every owning `Condition`, `release()` returns its id and removes
the condition's hold on the node (the id slot is nulled out), so that the
subsequent destruction of that condition performs no node deletion, whatever
status the runtime would have returned. -/
theorem condition_release_disarms_destructor (c : Condition)
    (h : c.owns = true) :
    c.release.1 = c.id ∧
    ∀ deleteStatus : StatusCode,
      c.release.2.destructor deleteStatus = .ok [] := by
  refine ⟨rfl, fun deleteStatus => ?_⟩
  simp [Condition.release, Condition.destructor, NodeId.isNull]

/-- Guard of the dispatch thunks: whether the registry holds, for this
condition, a slot of the given kind with a non-empty stored function
(`cbs->kind && cbs->kind->cb`). -/
def hasRunnableSlot (reg : Registry) (condition : NodeId)
    (select : ConditionTwoStateCallbacks → Option CallbackSlot) : Bool :=
  match reg.find condition with
  | some cbs =>
    match select cbs with
    | some slot => slot.cb.isSome
    | none => false
  | none => false

/-- C7: for every dispatch of a two-state transition for a condition with no
registry entry, or whose slot for that transition kind is empty, the dispatch
entry point returns the good status without invoking any callback — for each
of the four kinds. -/
theorem dispatch_without_callback_proceeds (reg : Registry) (server : Nat)
    (condition : NodeId) (sessionId : Option NodeId) :
    (hasRunnableSlot reg condition (fun cbs => cbs.enteringEnabled) = false →
      twoStateThunkEnabled reg server condition sessionId = (.ok GOOD, false)) ∧
    (hasRunnableSlot reg condition (fun cbs => cbs.enteringAcked) = false →
      twoStateThunkAcked reg server condition sessionId = (.ok GOOD, false)) ∧
    (hasRunnableSlot reg condition (fun cbs => cbs.enteringConfirmed) = false →
      twoStateThunkConfirmed reg server condition sessionId = (.ok GOOD, false)) ∧
    (hasRunnableSlot reg condition (fun cbs => cbs.enteringActive) = false →
      twoStateThunkActive reg server condition sessionId = (.ok GOOD, false)) := by
  refine ⟨?_, ?_, ?_, ?_⟩ <;> intro h <;>
    [unfold twoStateThunkEnabled; unfold twoStateThunkAcked;
     unfold twoStateThunkConfirmed; unfold twoStateThunkActive] <;>
    revert h <;> unfold hasRunnableSlot <;>
    cases hfind : reg.find condition <;> simp <;>
    rename_i cbs <;>
    [cases cbs.enteringEnabled; cases cbs.enteringAcked;
     cases cbs.enteringConfirmed; cases cbs.enteringActive] <;>
    simp <;> rename_i slot <;> cases hcb : slot.cb <;> simp

/-- Closed witness for the C7 theorem: the empty registry has no entry for any
condition, and all four dispatch entry points return the good status without
invoking a callback. -/
theorem dispatch_without_callback_proceeds_witness :
    twoStateThunkEnabled [] 0 (.node 1) none = (.ok GOOD, false) ∧
    twoStateThunkAcked [] 0 (.node 1) none = (.ok GOOD, false) ∧
    twoStateThunkConfirmed [] 0 (.node 1) none = (.ok GOOD, false) ∧
    twoStateThunkActive [] 0 (.node 1) none = (.ok GOOD, false) :=
  ⟨(dispatch_without_callback_proceeds [] 0 (.node 1) none).1 rfl,
   (dispatch_without_callback_proceeds [] 0 (.node 1) none).2.1 rfl,
   (dispatch_without_callback_proceeds [] 0 (.node 1) none).2.2.1 rfl,
   (dispatch_without_callback_proceeds [] 0 (.node 1) none).2.2.2 rfl⟩

/-- Closed witness for the C6 theorem: an owning condition on node 5 releases
that id, and its destructor then deletes nothing even when the runtime's
deletion call would report a failure. -/
theorem condition_release_disarms_destructor_witness :
    (Condition.mk 0 (.node 5) true).release.1 = .node 5 ∧
    (Condition.mk 0 (.node 5) true).release.2.destructor BADINTERNALERROR =
      .ok [] :=
  ⟨(condition_release_disarms_destructor (Condition.mk 0 (.node 5) true) rfl).1,
   (condition_release_disarms_destructor (Condition.mk 0 (.node 5) true) rfl).2
      BADINTERNALERROR⟩

/-- C10: registration is not atomic on error — for each of `onEnabled`,
`onAboutToBeAcked`, `onAboutToBeConfirmed` and `onActive`, the registry slot
for that (condition, kind) is created or overwritten with the new source,
remove-branch flag and callback, and when the runtime rejects the hook
installation (`installStatus` bad, so the call raises that status), the new
callback nevertheless remains stored, replacing any previous one. -/
theorem registration_updates_registry_before_install (c : Condition)
    (reg : Registry) (source : NodeId) (cb : TwoStateCallback)
    (removeBranch : Bool) (installStatus : StatusCode)
    (h : isGood installStatus = false) :
    ((c.onEnabled reg source cb removeBranch installStatus).2 =
        .error installStatus ∧
      ((c.onEnabled reg source cb removeBranch installStatus).1.find c.id).bind
          (fun cbs => cbs.enteringEnabled) =
        some ⟨source, removeBranch, some cb⟩) ∧
    ((c.onAboutToBeAcked reg source cb removeBranch installStatus).2 =
        .error installStatus ∧
      ((c.onAboutToBeAcked reg source cb removeBranch installStatus).1.find
          c.id).bind (fun cbs => cbs.enteringAcked) =
        some ⟨source, removeBranch, some cb⟩) ∧
    ((c.onAboutToBeConfirmed reg source cb removeBranch installStatus).2 =
        .error installStatus ∧
      ((c.onAboutToBeConfirmed reg source cb removeBranch installStatus).1.find
          c.id).bind (fun cbs => cbs.enteringConfirmed) =
        some ⟨source, removeBranch, some cb⟩) ∧
    ((c.onActive reg source cb removeBranch installStatus).2 =
        .error installStatus ∧
      ((c.onActive reg source cb removeBranch installStatus).1.find c.id).bind
          (fun cbs => cbs.enteringActive) =
        some ⟨source, removeBranch, some cb⟩) := by
  refine ⟨⟨?_, ?_⟩, ⟨?_, ?_⟩, ⟨?_, ?_⟩, ⟨?_, ?_⟩⟩ <;>
    simp [Condition.onEnabled, Condition.onAboutToBeAcked,
      Condition.onAboutToBeConfirmed, Condition.onActive, throwIfBad, h,
      Registry.find_modify_self]

/-- Closed witness for the C10 theorem: registering a callback on a registry
that already holds an older slot for the same condition and kind, with the
runtime rejecting the hook installation, raises the bad status yet leaves the
new callback stored in place of the old. -/
theorem registration_updates_registry_before_install_witness :
    isGood BADINTERNALERROR = false ∧
    (((Condition.mk 0 (.node 1) true).onActive
        [(.node 1, { enteringActive := some ⟨.node 9, true, none⟩ })]
        (.node 2) (fun _ _ _ => .ok GOOD) false BADINTERNALERROR).2 =
      .error BADINTERNALERROR ∧
     (((Condition.mk 0 (.node 1) true).onActive
        [(.node 1, { enteringActive := some ⟨.node 9, true, none⟩ })]
        (.node 2) (fun _ _ _ => .ok GOOD) false BADINTERNALERROR).1.find
          (.node 1)).bind (fun cbs => cbs.enteringActive) =
      some ⟨.node 2, false, some fun _ _ _ => .ok GOOD⟩) :=
  ⟨by decide,
   (registration_updates_registry_before_install (Condition.mk 0 (.node 1) true)
      [(.node 1, { enteringActive := some ⟨.node 9, true, none⟩ })]
      (.node 2) (fun _ _ _ => .ok GOOD) false BADINTERNALERROR
      (by decide)).2.2.2⟩

/-- C9: for every identity-token variant decoded at session activation, the
adapter writes `identityType` and `isAdmin` into the session attribute store,
with `isAdmin == true` exactly when the token is a UserName token with
username `"admin"`, or any X509 token, or any Issued token, and
`isAdmin == false` for Anonymous or unrecognized tokens. -/
theorem activateSession_admin_policy (store : SessionAttributes)
    (token : UserIdentityToken) :
    (activateSession store token).get ⟨0, "identityType"⟩ =
      some (.string (match token with
        | .anonymous => "Anonymous"
        | .userName _ _ => "UserName"
        | .x509 _ => "X509"
        | .issued _ _ => "Issued"
        | .unknown => "Unknown")) ∧
    ∃ b : Bool,
      (activateSession store token).get ⟨0, "isAdmin"⟩ = some (.boolean b) ∧
      (b = true ↔ (∃ pw, token = .userName "admin" pw) ∨
        (∃ cert, token = .x509 cert) ∨ ∃ dat alg, token = .issued dat alg) := by
  cases token <;>
    simp [activateSession, SessionAttributes.get_set_self,
      SessionAttributes.get_set_other, eq_comm]

/-- A user transition callback that raises a C++ exception when invoked. -/
def throwingCallback : TwoStateCallback :=
  fun _ _ _ => .error "user callback raised"

/-- Registry holding, for condition node 1, an Active-kind slot whose stored
user callback raises when invoked. -/
def registryWithThrowingActive : Registry :=
  [(.node 1, { enteringActive := some ⟨.node 2, false, some throwingCallback⟩ })]

/-- C1, evaluated at the failing input: dispatching the Active transition for a
condition whose registered callback raises makes the exception escape
`twoStateThunkActive` (the invocation has no try/catch), so the runtime
receives no status at all — the result is the escaped exception and not the
good or any other status, contradicting the claim that the boundary converts
the exception to a generic non-good status. -/
theorem active_dispatch_exception_escapes :
    (twoStateThunkActive registryWithThrowingActive 0 (.node 1) none).1 =
      .error "user callback raised" ∧
    (twoStateThunkActive registryWithThrowingActive 0 (.node 1) none).2 =
      true ∧
    ∀ status : StatusCode,
      (twoStateThunkActive registryWithThrowingActive 0 (.node 1) none).1 ≠
        .ok status := by
  refine ⟨rfl, rfl, fun status h => ?_⟩
  rw [show (twoStateThunkActive registryWithThrowingActive 0 (.node 1)
      none).1 = .error "user callback raised" from rfl] at h
  exact Except.noConfusion h

/-- C2, evaluated at the failing input: on a session not yet annotated (empty
attribute store, or one missing `isAdmin`), `getUserAccessLevel` propagates
the missing-attribute failure instead of falling back to the read-only access
level. -/
theorem getUserAccessLevel_missing_attribute_propagates :
    getUserAccessLevel [] = .error BADNOTFOUND ∧
    getUserAccessLevel [] ≠ .ok CurrentRead ∧
    getUserAccessLevel [(⟨0, "identityType"⟩, .string "UserName")] =
      .error BADNOTFOUND := by
  refine ⟨rfl, fun h => ?_, rfl⟩
  rw [show getUserAccessLevel [] = .error BADNOTFOUND from rfl] at h
  exact Except.noConfusion h

/-- Annotated sessions do resolve: after `activateSession` has stored the
attributes, `getUserAccessLevel` grants read+write to admins and read-only to
non-admins (sanity check that the embedding of the adapter is usable). -/
theorem getUserAccessLevel_after_activate (store : SessionAttributes)
    (token : UserIdentityToken) :
    getUserAccessLevel (activateSession store token) =
        .ok (CurrentRead ||| CurrentWrite) ∨
    getUserAccessLevel (activateSession store token) = .ok CurrentRead := by
  cases token with
  | userName user password =>
    by_cases h : user = "admin" <;>
      simp [getUserAccessLevel, activateSession, getSessionAttribute,
        SessionAttributes.get_set_self, SessionAttributes.get_set_other,
        Variant.scalarBool, Variant.scalarString, h, bind, Except.bind, pure,
        Except.pure]
  | anonymous =>
    simp [getUserAccessLevel, activateSession, getSessionAttribute,
      SessionAttributes.get_set_self, SessionAttributes.get_set_other,
      Variant.scalarBool, Variant.scalarString, bind, Except.bind, pure,
      Except.pure]
  | x509 cert =>
    simp [getUserAccessLevel, activateSession, getSessionAttribute,
      SessionAttributes.get_set_self, SessionAttributes.get_set_other,
      Variant.scalarBool, Variant.scalarString, bind, Except.bind, pure,
      Except.pure]
  | issued dat alg =>
    simp [getUserAccessLevel, activateSession, getSessionAttribute,
      SessionAttributes.get_set_self, SessionAttributes.get_set_other,
      Variant.scalarBool, Variant.scalarString, bind, Except.bind, pure,
      Except.pure]
  | unknown =>
    simp [getUserAccessLevel, activateSession, getSessionAttribute,
      SessionAttributes.get_set_self, SessionAttributes.get_set_other,
      Variant.scalarBool, Variant.scalarString, bind, Except.bind, pure,
      Except.pure]

end OpcUa
